import Mathlib

/-!
Shallow embedding of the retry / popup-suppression core of the
selenium-ui-boilerplate repository (src/utils/setup.js,
src/utils/BaseTest.js, the ElementHelper utility), together with proofs
of the behavioural properties stated in the specification.

The remote driver is external and non-deterministic, so every embedded
operation takes the outcomes of its underlying driver calls as explicit
inputs (`Except String α` for a call that can reject) and returns its own
result together with a trace of the events it emitted (driver commands,
sleeps, log lines).  The embedded control flow mirrors the JavaScript
source statement by statement; `try { … } catch` becomes a `match` on the
`Except` outcome.
-/

namespace SeleniumBoilerplate

/-- One observable event emitted by the embedded code: a driver command,
a sleep, or a log line. -/
inductive Event where
  | buildAttempt (attempt : Nat)
  | setTimeouts
  | sleep (ms : Nat)
  | getCurrentUrlCmd
  | driverGet (url : String)
  | getWindowHandles
  | findDismissButtons
  | displayedCheck
  | enabledCheck
  | clickDismiss
  | popupPass
  | findAttempt (attempt : Nat)
  | clickOn (elem : Nat)
  | driverQuit
  | waitReady (timeout : Nat)
  | logInfo (msg : String)
  | logWarn (msg : String)
  | logError (msg : String)
  | logStep (msg : String)
  deriving DecidableEq, Repr

/-- `Except` outcome is an error. -/
def isErr {ε α : Type} : Except ε α → Bool
  | Except.error _ => true
  | Except.ok _ => false

/-- Number of driver-construction attempts (`builder.build()` calls) in a trace. -/
def countBuilds (tr : List Event) : Nat :=
  tr.countP fun e => match e with | Event.buildAttempt _ => true | _ => false

/-- Number of `sleep ms` events (for the given fixed delay) in a trace. -/
def countSleeps (ms : Nat) (tr : List Event) : Nat :=
  tr.countP fun e => match e with | Event.sleep m => m == ms | _ => false

/-- Number of underlying load commands (`driver.get`) in a trace. -/
def countGets (tr : List Event) : Nat :=
  tr.countP fun e => match e with | Event.driverGet _ => true | _ => false

/-- Number of popup-suppression passes (`handlePopups` invocations) in a trace. -/
def countPopupPasses (tr : List Event) : Nat :=
  tr.countP fun e => match e with | Event.popupPass => true | _ => false

/-- Number of warning-level log lines in a trace. -/
def countWarns (tr : List Event) : Nat :=
  tr.countP fun e => match e with | Event.logWarn _ => true | _ => false

/-- JavaScript `s.includes(pat)`: substring containment. -/
def strContains (s pat : String) : Bool :=
  decide (pat.toList <:+: s.toList)

/-- The already-there equivalence check of `BaseTest.navigateTo`
(src/utils/BaseTest.js line 90):
`currentUrl === url || (url.includes('/login') && currentUrl.includes('/login'))`. -/
def urlEquiv (url currentUrl : String) : Bool :=
  currentUrl == url || (strContains url "/login" && strContains currentUrl "/login")

/-- The fallback error of `navigateTo` when no attempt captured an error:
`Failed to navigate to ${url} after ${maxRetries} attempts`. -/
def navFailMsg (url : String) (maxRetries : Nat) : String :=
  "Failed to navigate to " ++ url ++ " after " ++ toString maxRetries ++ " attempts"

/-- The retry loop of `BaseTest.navigateTo` (src/utils/BaseTest.js lines 98-113).
`getRes n` is the outcome of `driver.get(url)` on attempt `n`.  The first
fuel argument is the number of attempts still allowed (`maxRetries - attempt + 1`),
the second is the 1-based attempt counter.  After the loop,
`throw lastError || new Error(navFailMsg)`. -/
def navLoop (url : String) (getRes : Nat → Except String Unit) (maxRetries : Nat) :
    Nat → Nat → Option String → Except String Unit × List Event
  | 0, _, lastError =>
    (Except.error (lastError.getD (navFailMsg url maxRetries)), [])
  | remaining + 1, attempt, _ =>
    match getRes attempt with
    | Except.ok _ =>
      (Except.ok (),
       [Event.logStep ("Navigate to: " ++ url ++ " (attempt " ++ toString attempt ++ ")"),
        Event.driverGet url])
    | Except.error e =>
      let rest := navLoop url getRes maxRetries remaining (attempt + 1) (some e)
      (rest.1,
       Event.logStep ("Navigate to: " ++ url ++ " (attempt " ++ toString attempt ++ ")")
         :: Event.driverGet url
         :: Event.logWarn ("Navigation attempt " ++ toString attempt ++ " failed: " ++ e)
         :: ((if attempt < maxRetries then [Event.sleep 500] else []) ++ rest.2))

/-- `BaseTest.navigateTo(url, maxRetries = 2)` (src/utils/BaseTest.js lines 82-114).
`hasDriver` models `this.driver` being non-null; `currentUrlRes` is the outcome
of `driver.getCurrentUrl()` in the short-circuit check (its errors are ignored
and navigation proceeds); `getRes n` is the outcome of `driver.get(url)` on
attempt `n`.  Note the source contains no call to `handlePopups`: on success it
returns directly (line 103, "Success, no need for popup handling delay"). -/
def navigateTo (hasDriver : Bool) (currentUrlRes : Except String String)
    (url : String) (maxRetries : Nat) (getRes : Nat → Except String Unit) :
    Except String Unit × List Event :=
  if hasDriver = false then
    (Except.error "WebDriver not initialized", [])
  else
    match currentUrlRes with
    | Except.ok currentUrl =>
      if urlEquiv url currentUrl then
        (Except.ok (),
         [Event.getCurrentUrlCmd, Event.logStep ("Already on target page: " ++ url)])
      else
        let r := navLoop url getRes maxRetries maxRetries 1 none
        (r.1, Event.getCurrentUrlCmd :: r.2)
    | Except.error _ =>
      let r := navLoop url getRes maxRetries maxRetries 1 none
      (r.1, Event.getCurrentUrlCmd :: r.2)

/-- One `navigateTo` call on a live session whose current location is `loc`,
with every driver call succeeding: `getCurrentUrl` returns `loc` and every
`driver.get` succeeds.  Default `maxRetries = 2` as in the source. -/
def runNav (loc url : String) : Except String Unit × List Event :=
  navigateTo true (Except.ok loc) url 2 (fun _ => Except.ok ())

/-- The session's location after `runNav loc url`: a successful `driver.get url`
lands the browser on `url`; a short-circuited call (no load command in the
trace) leaves the location unchanged. -/
def locAfter (loc url : String) : String :=
  if countGets (runNav loc url).2 = 0 then loc else url

/-- The warning logged by `_createDriverWithRetry` on a failed attempt:
`Driver creation attempt ${attempt}/${this.retries} failed: ${error.message}`. -/
def createWarnMsg (attempt retries : Nat) (msg : String) : String :=
  "Driver creation attempt " ++ toString attempt ++ "/" ++ toString retries
    ++ " failed: " ++ msg

/-- The fallback error of `_createDriverWithRetry` when no attempt captured an
error: `Failed to create driver after ${this.retries} attempts`. -/
def createFailMsg (retries : Nat) : String :=
  "Failed to create driver after " ++ toString retries ++ " attempts"

/-- The loop of `WebDriverManager._createDriverWithRetry`
(src/utils/setup.js lines 139-156).  `buildRes n` is the outcome of
`builder.build()` on attempt `n`; the first fuel argument is the number of
attempts still allowed, the second the 1-based attempt counter.  After the
loop, `throw lastError || new Error(createFailMsg)`. -/
def createRetryLoop (retries retryDelay : Nat) (buildRes : Nat → Except String Unit) :
    Nat → Nat → Option String → Except String Unit × List Event
  | 0, _, lastError =>
    (Except.error (lastError.getD (createFailMsg retries)), [])
  | remaining + 1, attempt, _ =>
    match buildRes attempt with
    | Except.ok _ => (Except.ok (), [Event.buildAttempt attempt])
    | Except.error e =>
      let rest := createRetryLoop retries retryDelay buildRes remaining (attempt + 1) (some e)
      (rest.1,
       Event.buildAttempt attempt
         :: Event.logWarn (createWarnMsg attempt retries e)
         :: ((if attempt < retries then [Event.sleep retryDelay] else []) ++ rest.2))

/-- `WebDriverManager._createDriverWithRetry(builder)` with the manager's fixed
policy fields `this.retries` and `this.retryDelay`. -/
def createDriverWithRetry (retries retryDelay : Nat)
    (buildRes : Nat → Except String Unit) : Except String Unit × List Event :=
  createRetryLoop retries retryDelay buildRes retries 1 none

/-- `WebDriverManager.createDriver()` (src/utils/setup.js lines 25-55), with
`this.retries = 3` and `this.retryDelay = 2000` from the constructor.
`browser` is `this.browser` (already lowercased by the constructor);
`buildRes n` is the outcome of `builder.build()` on attempt `n`;
`timeoutsRes` is the outcome of `_configureTimeouts()`.  An unsupported
browser throws before any build attempt; the outer `catch` logs
`Failed to initialize WebDriver: …` and rethrows the error unchanged. -/
def createDriver (browser : String) (buildRes : Nat → Except String Unit)
    (timeoutsRes : Except String Unit) : Except String Unit × List Event :=
  let inner : Except String Unit × List Event :=
    if browser == "chrome" || browser == "firefox" then
      let r := createDriverWithRetry 3 2000 buildRes
      match r.1 with
      | Except.ok _ =>
        match timeoutsRes with
        | Except.ok _ =>
          (Except.ok (),
           r.2 ++ [Event.setTimeouts, Event.logInfo "WebDriver initialized successfully"])
        | Except.error e => (Except.error e, r.2 ++ [Event.setTimeouts])
      | Except.error e => (Except.error e, r.2)
    else
      (Except.error ("Unsupported browser: " ++ browser), [])
  match inner.1 with
  | Except.ok _ => inner
  | Except.error e =>
    (Except.error e, inner.2 ++ [Event.logError ("Failed to initialize WebDriver: " ++ e)])

/-- `WebDriverManager.quit()` (src/utils/setup.js lines 241-252).
`driverPresent` models `this.driver` being non-null and `quitRes` the outcome
of `this.driver.quit()`.  Returns the new `this.driver`-present state; the
result is `Except` to show that no path raises: the `catch` swallows close
errors and the `finally` always nulls the driver. -/
def quit (driverPresent : Bool) (quitRes : Except String Unit) :
    Except String Bool × List Event :=
  if driverPresent then
    match quitRes with
    | Except.ok _ =>
      (Except.ok false, [Event.driverQuit, Event.logInfo "WebDriver closed successfully"])
    | Except.error e =>
      (Except.ok false, [Event.driverQuit, Event.logError ("Error closing WebDriver: " ++ e)])
  else
    (Except.ok false, [])

/-- `WebDriverManager.getPageInfo()` (src/utils/setup.js lines 220-236).
Throws when `this.driver` is null; otherwise `Promise.all` of
`getCurrentUrl()` and `getTitle()`, with any rejection caught and converted
to the `{ url: 'unknown', title: 'unknown' }` fallback. -/
def getPageInfo (hasDriver : Bool) (urlRes titleRes : Except String String) :
    Except String (String × String) :=
  if hasDriver = false then
    Except.error "WebDriver not initialized"
  else
    match urlRes, titleRes with
    | Except.ok u, Except.ok t => Except.ok (u, t)
    | _, _ => Except.ok ("unknown", "unknown")

/-- `BaseTest.getPageInfo()` (src/utils/BaseTest.js lines 190-195): delegates
to the manager when one exists, else returns the fallback object. -/
def baseGetPageInfo (hasManager hasDriver : Bool)
    (urlRes titleRes : Except String String) : Except String (String × String) :=
  if hasManager then getPageInfo hasDriver urlRes titleRes
  else Except.ok ("unknown", "unknown")

/-- `BaseTest.waitForPageReady(timeout = 5000)` (src/utils/BaseTest.js
lines 169-185).  Throws when `this.driver` is null; otherwise the outcome of
`driver.wait(readyState === 'complete', timeout)` is caught on failure and
logged as a warning. -/
def waitForPageReady (hasDriver : Bool) (waitRes : Except String Unit)
    (timeout : Nat) : Except String Unit × List Event :=
  if hasDriver = false then
    (Except.error "WebDriver not initialized", [])
  else
    match waitRes with
    | Except.ok _ => (Except.ok (), [Event.waitReady timeout])
    | Except.error e =>
      (Except.ok (),
       [Event.waitReady timeout,
        Event.logWarn ("Page ready timeout after " ++ toString timeout ++ "ms: " ++ e)])

/-- Outcomes of the driver calls made by one `handlePopups` pass:
the window-handle query, the dismiss-button search (`findElements`), the
`isDisplayed()` / `isEnabled()` checks on the first button, and the click. -/
structure PopupEnv where
  windowHandles : Except String (List String)
  dismissButtons : Except String (List Nat)
  displayedRes : Except String Bool
  enabledRes : Except String Bool
  clickRes : Except String Unit
  deriving Repr

/-- `BaseTest.handlePopups()` (src/utils/BaseTest.js lines 120-164).
Returns immediately when `this.driver` is null.  The outer `try` covers the
window-handle query and the `findElements` search, its `catch` logging
`Popup handling encountered error: …` at warning level; the inner `try`
covers the displayed/enabled checks and the click, its `catch` ignoring the
error without logging ("// Ignore click errors").  Every path returns `ok`.
The leading `popupPass` event marks that a suppression pass ran. -/
def handlePopups (hasDriver : Bool) (env : PopupEnv) :
    Except String Unit × List Event :=
  if hasDriver = false then
    (Except.ok (), [])
  else
    match env.windowHandles with
    | Except.error e =>
      (Except.ok (),
       [Event.popupPass, Event.getWindowHandles,
        Event.logWarn ("Popup handling encountered error: " ++ e)])
    | Except.ok handles =>
      if handles.length = 0 then
        (Except.ok (),
         [Event.popupPass, Event.getWindowHandles,
          Event.logWarn "No browser windows available for popup handling"])
      else
        match env.dismissButtons with
        | Except.error e =>
          (Except.ok (),
           [Event.popupPass, Event.getWindowHandles, Event.sleep 100,
            Event.findDismissButtons,
            Event.logWarn ("Popup handling encountered error: " ++ e)])
        | Except.ok btns =>
          if btns.length > 0 then
            let base := [Event.popupPass, Event.getWindowHandles, Event.sleep 100,
                         Event.findDismissButtons]
            match env.displayedRes with
            | Except.error _ => (Except.ok (), base ++ [Event.displayedCheck])
            | Except.ok disp =>
              match env.enabledRes with
              | Except.error _ =>
                (Except.ok (), base ++ [Event.displayedCheck, Event.enabledCheck])
              | Except.ok en =>
                if disp && en then
                  match env.clickRes with
                  | Except.error _ =>
                    (Except.ok (),
                     base ++ [Event.displayedCheck, Event.enabledCheck, Event.clickDismiss])
                  | Except.ok _ =>
                    (Except.ok (),
                     base ++ [Event.displayedCheck, Event.enabledCheck, Event.clickDismiss,
                              Event.logStep "Popup dismissed", Event.sleep 100])
                else
                  (Except.ok (), base ++ [Event.displayedCheck, Event.enabledCheck])
          else
            (Except.ok (),
             [Event.popupPass, Event.getWindowHandles, Event.sleep 100,
              Event.findDismissButtons])

/-- `ElementHelper.findElement(locator, timeout = 5000)` (ElementHelper
lines 15-21).  `waitRes` is the outcome of
`driver.wait(until.elementLocated(locator), timeout)` (an element id on
success); a timeout is wrapped into an `Element not found` error. -/
def findElement (waitRes : Except String Nat) (locStr : String) (timeout : Nat) :
    Except String Nat :=
  match waitRes with
  | Except.ok e => Except.ok e
  | Except.error _ =>
    Except.error ("Element not found: " ++ locStr ++ " within " ++ toString timeout ++ "ms")

/-- `ElementHelper.elementExists(locator, timeout = 1000)` (ElementHelper
lines 80-87): the same located-element wait, but any error becomes `false`. -/
def elementExists (waitRes : Except String Nat) : Except String Bool :=
  match waitRes with
  | Except.ok _ => Except.ok true
  | Except.error _ => Except.ok false

/-- `ElementHelper.getElementText(locator, defaultText = '')` (ElementHelper
lines 68-75): `findElement` then `getText()`, with any error of either step
caught and converted into the caller-supplied default. -/
def getElementText (waitRes : Except String Nat) (getTextRes : Nat → Except String String)
    (locStr : String) (timeout : Nat) (defaultText : String) : Except String String :=
  match findElement waitRes locStr timeout with
  | Except.ok e =>
    match getTextRes e with
    | Except.ok t => Except.ok t
    | Except.error _ => Except.ok defaultText
  | Except.error _ => Except.ok defaultText

/-- The loop of `ElementHelper.clickElement` (ElementHelper lines 48-63).
`findRes n` is the outcome of the fresh `this.findElement(locator)` call made
on attempt `n` (an element id); `clickRes n el` the outcome of clicking
element `el` on attempt `n`.  The `catch` covers both the lookup and the
click; after the loop, `throw lastError`. -/
def clickLoop (findRes : Nat → Except String Nat)
    (clickRes : Nat → Nat → Except String Unit) (maxRetries : Nat) :
    Nat → Nat → Option String → Except String Unit × List Event
  | 0, _, lastError =>
    (Except.error (lastError.getD "undefined"), [])
  | remaining + 1, attempt, _ =>
    match findRes attempt with
    | Except.error e =>
      let rest := clickLoop findRes clickRes maxRetries remaining (attempt + 1) (some e)
      (rest.1,
       Event.findAttempt attempt
         :: ((if attempt < maxRetries then [Event.sleep 100] else []) ++ rest.2))
    | Except.ok el =>
      match clickRes attempt el with
      | Except.ok _ => (Except.ok (), [Event.findAttempt attempt, Event.clickOn el])
      | Except.error e =>
        let rest := clickLoop findRes clickRes maxRetries remaining (attempt + 1) (some e)
        (rest.1,
         Event.findAttempt attempt
           :: Event.clickOn el
           :: ((if attempt < maxRetries then [Event.sleep 100] else []) ++ rest.2))

/-- `ElementHelper.clickElement(locator, maxRetries = 2)`. -/
def clickElement (maxRetries : Nat) (findRes : Nat → Except String Nat)
    (clickRes : Nat → Nat → Except String Unit) : Except String Unit × List Event :=
  clickLoop findRes clickRes maxRetries maxRetries 1 none

/-- C5: `WebDriverManager.quit` is idempotent and never raises.  With a null
driver it is a no-op (no driver commands, no error); with a live driver it
always returns normally and nulls the driver, even when the underlying
`driver.quit()` throws, in which case the error is logged and swallowed.
Consequently a second `quit` after any first `quit` (driver now null) is a
no-op. -/
theorem quit_idempotent (p : Bool) (q q2 : Except String Unit) (e : String) :
    (quit p q).1 = Except.ok false
    ∧ quit false q2 = (Except.ok false, [])
    ∧ quit true (Except.error e)
        = (Except.ok false,
           [Event.driverQuit, Event.logError ("Error closing WebDriver: " ++ e)]) := by
  refine ⟨?_, rfl, rfl⟩
  cases p <;> cases q <;> rfl

/-- C7: expected absence is never an error.  When the located-element wait
times out, `ElementHelper.elementExists` returns `false` (it never propagates
the lookup error) and `ElementHelper.getElementText` returns the
caller-supplied default; both operations return `ok` for every possible
lookup outcome. -/
theorem expected_absence_defaults (eWait : String) (gt : Nat → Except String String)
    (loc : String) (timeout : Nat) (dflt : String) :
    elementExists (Except.error eWait) = Except.ok false
    ∧ getElementText (Except.error eWait) gt loc timeout dflt = Except.ok dflt
    ∧ (∀ w : Except String Nat, ∃ b, elementExists w = Except.ok b)
    ∧ (∀ w : Except String Nat, ∃ s, getElementText w gt loc timeout dflt = Except.ok s) := by
  refine ⟨rfl, rfl, ?_, ?_⟩
  · intro w
    cases w with
    | ok el => exact ⟨true, rfl⟩
    | error er => exact ⟨false, rfl⟩
  · intro w
    cases w with
    | ok el =>
      cases h : gt el with
      | ok s => exact ⟨s, by simp [getElementText, findElement, h]⟩
      | error er => exact ⟨dflt, by simp [getElementText, findElement, h]⟩
    | error er => exact ⟨dflt, rfl⟩

/-- C9: `WebDriverManager.getPageInfo` with an initialized driver never
propagates an error: it returns an object for every outcome of
`getCurrentUrl`/`getTitle`, falling back to `{ url: 'unknown',
title: 'unknown' }` when either call fails; and `BaseTest.getPageInfo`
with no driver manager returns the same fallback object. -/
theorem getPageInfo_never_fails (u t : Except String String) (hd : Bool) :
    (∃ p, getPageInfo true u t = Except.ok p)
    ∧ ((isErr u = true ∨ isErr t = true) →
        getPageInfo true u t = Except.ok ("unknown", "unknown"))
    ∧ baseGetPageInfo false hd u t = Except.ok ("unknown", "unknown") := by
  refine ⟨?_, ?_, rfl⟩
  · cases u <;> cases t <;> exact ⟨_, rfl⟩
  · intro h
    rcases u with eu | vu <;> rcases t with et | vt
    · rfl
    · rfl
    · rfl
    · simp [isErr] at h

/-- C9 witness: a failing `getCurrentUrl` together with a succeeding
`getTitle` yields the fallback object. -/
theorem getPageInfo_never_fails_witness :
    getPageInfo true (Except.error "boom") (Except.ok "Title")
      = Except.ok ("unknown", "unknown") :=
  (getPageInfo_never_fails (Except.error "boom") (Except.ok "Title") true).2.1
    (Or.inl rfl)

/-- C10: `BaseTest.waitForPageReady` with an initialized driver returns
normally for every outcome of the underlying readiness wait; a timeout is
caught and logged as a warning, never propagated.  It throws only when the
driver is not initialized. -/
theorem waitForPageReady_swallows_timeout (w : Except String Unit)
    (timeout : Nat) (e : String) :
    (waitForPageReady true w timeout).1 = Except.ok ()
    ∧ (waitForPageReady true (Except.error e) timeout).2
        = [Event.waitReady timeout,
           Event.logWarn ("Page ready timeout after " ++ toString timeout ++ "ms: " ++ e)]
    ∧ (waitForPageReady false w timeout).1 = Except.error "WebDriver not initialized" := by
  refine ⟨?_, rfl, rfl⟩
  cases w <;> rfl

/-- C1 counterexample: when all three build attempts fail (with errors
`boom1`, `boom2`, `boom3`), `createDriver` rethrows the last underlying build
error `boom3` verbatim; the thrown error is not the attempt-count message
`Failed to create driver after 3 attempts` (that message is only the fallback
for `lastError` being unset), so the final error does not identify the total
attempt count. -/
theorem createDriver_attempt_count_cex :
    (createDriver "chrome" (fun n => Except.error ("boom" ++ toString n))
        (Except.ok ())).1 = Except.error "boom3"
    ∧ ("boom3" : String) ≠ createFailMsg 3 := by
  constructor
  · rfl
  · decide

/-- C1 (amended): on persistent build failure `createDriver` makes exactly 3
(`this.retries`) build attempts with a fixed 2000ms sleep between consecutive
attempts, and after the third failure fails with the last underlying build
error; with a browser that is neither `chrome` nor `firefox` it fails
immediately with an `Unsupported browser` error and performs zero build
attempts. -/
theorem createDriver_retry_policy (e : Nat → String) (t : Except String Unit)
    (b : String) (hb : (b == "chrome" || b == "firefox") = false)
    (br : Nat → Except String Unit) :
    createDriver "chrome" (fun n => Except.error (e n)) t
      = (Except.error (e 3),
         [Event.buildAttempt 1, Event.logWarn (createWarnMsg 1 3 (e 1)), Event.sleep 2000,
          Event.buildAttempt 2, Event.logWarn (createWarnMsg 2 3 (e 2)), Event.sleep 2000,
          Event.buildAttempt 3, Event.logWarn (createWarnMsg 3 3 (e 3)),
          Event.logError ("Failed to initialize WebDriver: " ++ e 3)])
    ∧ countBuilds (createDriver "chrome" (fun n => Except.error (e n)) t).2 = 3
    ∧ countSleeps 2000 (createDriver "chrome" (fun n => Except.error (e n)) t).2 = 2
    ∧ createDriver b br t
        = (Except.error ("Unsupported browser: " ++ b),
           [Event.logError ("Failed to initialize WebDriver: "
              ++ ("Unsupported browser: " ++ b))])
    ∧ countBuilds (createDriver b br t).2 = 0 := by
  have hmain : createDriver "chrome" (fun n => Except.error (e n)) t
      = (Except.error (e 3),
         [Event.buildAttempt 1, Event.logWarn (createWarnMsg 1 3 (e 1)), Event.sleep 2000,
          Event.buildAttempt 2, Event.logWarn (createWarnMsg 2 3 (e 2)), Event.sleep 2000,
          Event.buildAttempt 3, Event.logWarn (createWarnMsg 3 3 (e 3)),
          Event.logError ("Failed to initialize WebDriver: " ++ e 3)]) := rfl
  have hunsupported : createDriver b br t
      = (Except.error ("Unsupported browser: " ++ b),
         [Event.logError ("Failed to initialize WebDriver: "
            ++ ("Unsupported browser: " ++ b))]) := by
    simp [createDriver, hb]
  refine ⟨hmain, ?_, ?_, hunsupported, ?_⟩
  · rw [hmain]; rfl
  · rw [hmain]; rfl
  · rw [hunsupported]; rfl

/-- C1 witness: the retry-policy theorem instantiated at concrete build
errors and the unsupported browser name `safari`. -/
theorem createDriver_retry_policy_witness :
    countBuilds (createDriver "safari" (fun _ => Except.ok ()) (Except.ok ())).2 = 0 :=
  (createDriver_retry_policy (fun n => "b" ++ toString n) (Except.ok ()) "safari"
    (by decide) (fun _ => Except.ok ())).2.2.2.2

/-- C2 counterexample: a concrete successful `navigateTo` (fresh load of
`https://target` from `https://start`) returns without any popup-suppression
pass: its trace contains zero `handlePopups` invocations, while the claim
requires at least one before returning. -/
theorem navigateTo_no_popup_cex :
    (runNav "https://start" "https://target").1 = Except.ok ()
    ∧ countPopupPasses (runNav "https://start" "https://target").2 = 0 := by
  constructor
  · rfl
  · rfl

/-- Helper: the navigation retry loop never emits a popup-suppression pass. -/
theorem navLoop_no_popup (url : String) (getRes : Nat → Except String Unit)
    (maxRetries : Nat) :
    ∀ fuel attempt lastError,
      countPopupPasses (navLoop url getRes maxRetries fuel attempt lastError).2 = 0 := by
  intro fuel
  induction fuel with
  | zero => intro attempt lastError; rfl
  | succ f ih =>
    intro attempt lastError
    simp only [navLoop]
    cases getRes attempt with
    | ok u => rfl
    | error er =>
      have hrest := ih (attempt + 1) (some er)
      simp only [countPopupPasses] at hrest ⊢
      by_cases h : attempt < maxRetries <;>
        simp [h, List.countP_cons, List.countP_append, hrest]

/-- C2 (amended): `navigateTo` performs no popup-suppression pass at all —
for every driver state, current-location outcome, URL, retry bound and load
outcomes, its trace contains zero `handlePopups` invocations (both on the
already-there short-circuit and on a fresh load); popup suppression happens
only where callers invoke `handlePopups` themselves. -/
theorem navigateTo_never_popups (hasDriver : Bool) (cur : Except String String)
    (url : String) (maxRetries : Nat) (getRes : Nat → Except String Unit) :
    countPopupPasses (navigateTo hasDriver cur url maxRetries getRes).2 = 0 := by
  cases hasDriver with
  | false => rfl
  | true =>
    cases cur with
    | error er =>
      simp only [navigateTo, countPopupPasses, List.countP_cons]
      simpa [countPopupPasses] using navLoop_no_popup url getRes maxRetries maxRetries 1 none
    | ok c =>
      by_cases h : urlEquiv url c
      · simp [navigateTo, h, countPopupPasses]
      · simp only [navigateTo, h, countPopupPasses, List.countP_cons]
        simpa [countPopupPasses] using navLoop_no_popup url getRes maxRetries maxRetries 1 none

/-- C3 counterexample: starting on `https://a` and calling
`navigateTo "https://a"` twice, the second call's URL is equivalent to the
current location, yet zero load commands are issued across the two calls
(both calls short-circuit), not the one load the claim requires. -/
theorem navigateTo_pair_cex :
    urlEquiv "https://a" (locAfter "https://a" "https://a") = true
    ∧ countGets ((runNav "https://a" "https://a").2
        ++ (runNav (locAfter "https://a" "https://a") "https://a").2) = 0 := by
  constructor
  · rfl
  · rfl

/-- C3 (amended): for a pair of consecutive `navigateTo` calls whose first
call is not itself short-circuited (the session's starting location is not
equivalent to the first URL), exactly one `driver.get` is issued across the
two calls when the second URL is equivalent to the current location under
the equivalence rule (exact match, or both URLs containing `/login`), and
exactly two when it is not. -/
theorem navigateTo_pair (loc0 u1 u2 : String) (h1 : urlEquiv u1 loc0 = false) :
    countGets ((runNav loc0 u1).2 ++ (runNav (locAfter loc0 u1) u2).2)
      = if urlEquiv u2 (locAfter loc0 u1) = true then 1 else 2 := by
  have hfirst : runNav loc0 u1
      = (Except.ok (),
         [Event.getCurrentUrlCmd,
          Event.logStep ("Navigate to: " ++ u1 ++ " (attempt " ++ toString 1 ++ ")"),
          Event.driverGet u1]) := by
    simp [runNav, navigateTo, h1, navLoop]
  have hloc : locAfter loc0 u1 = u1 := by
    simp [locAfter, hfirst, countGets, List.countP_cons]
  rw [hloc]
  by_cases hu : urlEquiv u2 u1 = true
  · have hsecond : runNav u1 u2
        = (Except.ok (),
           [Event.getCurrentUrlCmd, Event.logStep ("Already on target page: " ++ u2)]) := by
      simp [runNav, navigateTo, hu]
    rw [hfirst, hsecond]
    simp [hu, countGets, List.countP_cons, List.countP_append]
  · have hsecond : runNav u1 u2
        = (Except.ok (),
           [Event.getCurrentUrlCmd,
            Event.logStep ("Navigate to: " ++ u2 ++ " (attempt " ++ toString 1 ++ ")"),
            Event.driverGet u2]) := by
      simp [runNav, navigateTo, hu, navLoop]
    rw [hfirst, hsecond]
    simp [hu, countGets, List.countP_cons, List.countP_append]

/-- C3 witness: fresh session on `https://s`, then two `navigateTo` calls to
`https://a`: the pair theorem applies and yields one load in total. -/
theorem navigateTo_pair_witness :
    countGets ((runNav "https://s" "https://a").2
        ++ (runNav (locAfter "https://s" "https://a") "https://a").2)
      = if urlEquiv "https://a" (locAfter "https://s" "https://a") = true then 1 else 2 :=
  navigateTo_pair "https://s" "https://a" "https://a" (by decide)

/-- Helper: when every load attempt fails, the navigation retry loop fails
with the last attempt's error, issues one `driver.get` per remaining attempt,
and sleeps 500ms between consecutive attempts. -/
theorem navLoop_all_fail (url : String) (e : Nat → String) (maxRetries : Nat) :
    ∀ fuel attempt lastError, attempt + fuel = maxRetries + 1 → 1 ≤ fuel →
      (navLoop url (fun n => Except.error (e n)) maxRetries fuel attempt lastError).1
          = Except.error (e maxRetries)
      ∧ countGets
          (navLoop url (fun n => Except.error (e n)) maxRetries fuel attempt lastError).2
          = fuel
      ∧ countSleeps 500
          (navLoop url (fun n => Except.error (e n)) maxRetries fuel attempt lastError).2
          = fuel - 1 := by
  intro fuel
  induction fuel with
  | zero => intro attempt lastError hsum hf; omega
  | succ f ih =>
    intro attempt lastError hsum hf
    by_cases hfz : f = 0
    · subst hfz
      have ha : attempt = maxRetries := by omega
      have hlt : ¬ (attempt < maxRetries) := by omega
      simp [navLoop, hlt, ha, countGets, countSleeps, List.countP_cons, List.countP_append]
    · have hf1 : 1 ≤ f := Nat.one_le_iff_ne_zero.mpr hfz
      obtain ⟨hr1, hr2, hr3⟩ := ih (attempt + 1) (some (e attempt)) (by omega) hf1
      have hlt : attempt < maxRetries := by omega
      simp only [countGets, countSleeps] at hr2 hr3
      refine ⟨?_, ?_, ?_⟩ <;>
        simp [navLoop, hlt, countGets, countSleeps, List.countP_cons, List.countP_append,
          hr1, hr2, hr3]
      omega

/-- C4 counterexample: with both load attempts of
`navigateTo "https://x" (maxRetries = 2)` failing (errors `e1`, `e2`), the
call fails with the bare last underlying error `e2`; the thrown error is not
wrapped with the attempt count (it differs from the code's own attempt-count
message `Failed to navigate to https://x after 2 attempts`, which is only the
fallback for `lastError` being unset). -/
theorem navigateTo_wrapped_error_cex :
    (navigateTo true (Except.ok "https://other") "https://x" 2
        (fun n => Except.error ("e" ++ toString n))).1 = Except.error "e2"
    ∧ ("e2" : String) ≠ navFailMsg "https://x" 2 := by
  constructor
  · rfl
  · decide

/-- C4 (amended): for every URL and `maxRetries ≥ 1`, when every load attempt
fails (and the short-circuit check does not hit), `navigateTo` fails by
rethrowing the last underlying error unchanged, after issuing one
`driver.get` per attempt with a fixed 500ms delay between consecutive
attempts (`maxRetries - 1` sleeps in total). -/
theorem navigateTo_exhaustion (url : String) (e : Nat → String) (maxRetries : Nat)
    (hm : 1 ≤ maxRetries) (cur : Except String String)
    (hcur : ∀ c, cur = Except.ok c → urlEquiv url c = false) :
    (navigateTo true cur url maxRetries (fun n => Except.error (e n))).1
        = Except.error (e maxRetries)
    ∧ countGets (navigateTo true cur url maxRetries (fun n => Except.error (e n))).2
        = maxRetries
    ∧ countSleeps 500
        (navigateTo true cur url maxRetries (fun n => Except.error (e n))).2
        = maxRetries - 1 := by
  obtain ⟨hr1, hr2, hr3⟩ :=
    navLoop_all_fail url e maxRetries maxRetries 1 none (by omega) hm
  simp only [countGets, countSleeps] at hr2 hr3
  cases cur with
  | error er =>
    refine ⟨?_, ?_, ?_⟩ <;>
      simp [navigateTo, countGets, countSleeps, List.countP_cons, hr1, hr2, hr3]
  | ok c =>
    have hc := hcur c rfl
    refine ⟨?_, ?_, ?_⟩ <;>
      simp [navigateTo, hc, countGets, countSleeps, List.countP_cons, hr1, hr2, hr3]

/-- C6 counterexample: when the click on the dismiss control throws
(everything before it succeeding), `handlePopups` returns normally but logs
nothing: the click error is swallowed by the inner catch without any
warning-level log line, contradicting the claim that internal errors are
logged at warning level. -/
theorem handlePopups_click_not_logged_cex :
    handlePopups true
        ⟨Except.ok ["w"], Except.ok [5], Except.ok true, Except.ok true,
         Except.error "click intercepted"⟩
      = (Except.ok (),
         [Event.popupPass, Event.getWindowHandles, Event.sleep 100,
          Event.findDismissButtons, Event.displayedCheck, Event.enabledCheck,
          Event.clickDismiss])
    ∧ countWarns (handlePopups true
        ⟨Except.ok ["w"], Except.ok [5], Except.ok true, Except.ok true,
         Except.error "click intercepted"⟩).2 = 0 := by
  constructor
  · rfl
  · rfl

/-- C6 (amended): `handlePopups` never fails its calling context — for every
driver state and every outcome of the window-handle query, element search,
displayed/enabled checks and click (including any of them throwing), it
returns normally.  Errors of the window-handle query and of the element
search are logged at warning level; errors of the displayed/enabled checks
and of the click are swallowed silently, without any log line. -/
theorem handlePopups_never_fails (hd : Bool) (env : PopupEnv) :
    (handlePopups hd env).1 = Except.ok ()
    ∧ (hd = true → isErr env.windowHandles = true →
        0 < countWarns (handlePopups hd env).2)
    ∧ (hd = true → ∀ hs, env.windowHandles = Except.ok hs → hs ≠ [] →
        isErr env.dismissButtons = true → 0 < countWarns (handlePopups hd env).2)
    ∧ (∀ hs bs, env.windowHandles = Except.ok hs → hs ≠ [] →
        env.dismissButtons = Except.ok bs →
        countWarns (handlePopups hd env).2 = 0) := by
  obtain ⟨wh, db, dr, er, cr⟩ := env
  refine ⟨?_, ?_, ?_, ?_⟩
  · cases hd
    · rfl
    · rcases wh with we | hs
      · rfl
      · cases hs with
        | nil => rfl
        | cons a t =>
          rcases db with de | bs
          · simp [handlePopups]
          · cases bs with
            | nil => simp [handlePopups]
            | cons b bt =>
              rcases dr with de2 | disp
              · simp [handlePopups]
              · rcases er with ee | en
                · simp [handlePopups]
                · cases disp <;> cases en <;> rcases cr with ce | cu <;>
                    simp [handlePopups]
  · intro hhd hw
    subst hhd
    rcases wh with we | hs
    · simp [handlePopups, countWarns, List.countP_cons]
    · simp [isErr] at hw
  · intro hhd hs' hwh hne hdb
    subst hhd
    rcases db with de | bs
    · cases hwh
      cases hs' with
      | nil => exact absurd rfl hne
      | cons a t => simp [handlePopups, countWarns, List.countP_cons]
    · simp [isErr] at hdb
  · intro hs' bs hwh hdbne hdb
    cases hd
    · rfl
    · cases hwh
      cases hdb
      cases hs' with
      | nil => exact absurd rfl hdbne
      | cons a t =>
        cases bs with
        | nil => simp [handlePopups, countWarns, List.countP_cons]
        | cons b bt =>
          rcases dr with de2 | disp
          · simp [handlePopups, countWarns, List.countP_cons, List.countP_append]
          · rcases er with ee | en
            · simp [handlePopups, countWarns, List.countP_cons, List.countP_append]
            · cases disp <;> cases en <;> rcases cr with ce | cu <;>
                simp [handlePopups, countWarns, List.countP_cons, List.countP_append]

/-- C6 witness: a failing window-handle query makes `handlePopups` log a
warning while still returning normally. -/
theorem handlePopups_never_fails_witness :
    0 < countWarns (handlePopups true
        ⟨Except.error "session torn down", Except.ok [], Except.ok true,
         Except.ok true, Except.ok ()⟩).2 :=
  (handlePopups_never_fails true
      ⟨Except.error "session torn down", Except.ok [], Except.ok true,
       Except.ok true, Except.ok ()⟩).2.1 rfl rfl

/-- C8: `clickElement` with `maxRetries = 2` whose lookup-or-click fails on
the first attempt and succeeds on the second returns successfully, and the
second attempt performs a fresh `findElement` lookup — the element clicked on
attempt 2 is the one returned by the attempt-2 lookup, never the handle from
the failed attempt 1 — with the fixed 100ms delay between the attempts; when
all attempts fail — each attempt failing either because its lookup throws or
because its click throws (both are covered by the same catch) — it throws the
last underlying error, i.e. the final attempt's lookup or click error. -/
theorem clickElement_fresh_retry (e1 : String) (el1 el2 : Nat)
    (fr : Nat → Except String Nat) (cr : Nat → Nat → Except String Unit)
    (h2 : fr 2 = Except.ok el2) (h3 : cr 2 el2 = Except.ok ()) :
    (fr 1 = Except.error e1 →
      clickElement 2 fr cr
        = (Except.ok (),
           [Event.findAttempt 1, Event.sleep 100, Event.findAttempt 2, Event.clickOn el2]))
    ∧ (fr 1 = Except.ok el1 → cr 1 el1 = Except.error e1 →
      clickElement 2 fr cr
        = (Except.ok (),
           [Event.findAttempt 1, Event.clickOn el1, Event.sleep 100,
            Event.findAttempt 2, Event.clickOn el2]))
    ∧ (∀ (fr2 : Nat → Except String Nat) (cr2 : Nat → Nat → Except String Unit)
         (ea eb : String),
        (fr2 1 = Except.error ea
          ∨ ∃ el, fr2 1 = Except.ok el ∧ cr2 1 el = Except.error ea) →
        (fr2 2 = Except.error eb
          ∨ ∃ el, fr2 2 = Except.ok el ∧ cr2 2 el = Except.error eb) →
        (clickElement 2 fr2 cr2).1 = Except.error eb) := by
  refine ⟨?_, ?_, ?_⟩
  · intro h1
    simp [clickElement, clickLoop, h1, h2, h3]
  · intro h1 hc1
    simp [clickElement, clickLoop, h1, hc1, h2, h3]
  · intro fr2 cr2 ea eb hf1 hf2
    rcases hf1 with hf1 | ⟨fel1, hfind1, hclick1⟩ <;>
      rcases hf2 with hf2 | ⟨fel2, hfind2, hclick2⟩
    · simp [clickElement, clickLoop, hf1, hf2]
    · simp [clickElement, clickLoop, hf1, hfind2, hclick2]
    · simp [clickElement, clickLoop, hfind1, hclick1, hf2]
    · simp [clickElement, clickLoop, hfind1, hclick1, hfind2, hclick2]

/-- C8 witness: a lookup that fails once (stale) then succeeds with element 7
makes `clickElement 2` succeed, re-locating the element on attempt 2; and
when both lookups succeed but both clicks throw, the call fails with the
final attempt's click error. -/
theorem clickElement_fresh_retry_witness :
    clickElement 2 (fun n => if n == 1 then Except.error "stale" else Except.ok 7)
        (fun _ _ => Except.ok ())
      = (Except.ok (),
         [Event.findAttempt 1, Event.sleep 100, Event.findAttempt 2, Event.clickOn 7])
    ∧ (clickElement 2 (fun _ => Except.ok 9)
        (fun n _ => Except.error ("click" ++ toString n))).1
      = Except.error ("click" ++ toString 2) :=
  ⟨(clickElement_fresh_retry "stale" 0 7
      (fun n => if n == 1 then Except.error "stale" else Except.ok 7)
      (fun _ _ => Except.ok ()) rfl rfl).1 rfl,
   (clickElement_fresh_retry "stale" 0 7 (fun _ => Except.ok 7)
      (fun _ _ => Except.ok ()) rfl rfl).2.2
     (fun _ => Except.ok 9) (fun n _ => Except.error ("click" ++ toString n))
     ("click" ++ toString 1) ("click" ++ toString 2)
     (Or.inr ⟨9, rfl, rfl⟩) (Or.inr ⟨9, rfl, rfl⟩)⟩

/-- C4 witness: the exhaustion theorem instantiated at `https://x`,
`maxRetries = 2`, both attempts failing. -/
theorem navigateTo_exhaustion_witness :
    (navigateTo true (Except.ok "https://other") "https://x" 2
        (fun n => Except.error ("f" ++ toString n))).1
      = Except.error ("f" ++ toString 2) :=
  (navigateTo_exhaustion "https://x" (fun n => "f" ++ toString n) 2 (by omega)
      (Except.ok "https://other")
      (fun c hc => by injection hc with h; subst h; decide)).1

end SeleniumBoilerplate
